import Mathlib

/-!
Verification of `src/transformers/onnx/config.py`: the ONNX export
configuration protocol (`OnnxConfig`, `OnnxConfigWithPast`) and its
supporting computations.  Python integers are embedded as `Int`,
dictionaries as association lists, `None`-able results as `Option`.
-/

/-- The tensor-framework hint (`transformers.TensorType`), imported by the
source module; an opaque enumeration here, its inhabitants never inspected. -/
inductive TensorType where
  | pytorch
  | tensorflow
  | numpy
deriving DecidableEq

/-- Modelled from the spec: `ParameterFormat` lives in `.utils`, which is not
part of the sources; spec section 3 describes it as an enumerated numeric
storage format, each with a fixed byte width (32-bit float has width 4). -/
inductive ParameterFormat where
  | Float
deriving DecidableEq

/-- Modelled from the spec: the fixed byte width of a `ParameterFormat`
(Float32 is 4 bytes wide). -/
def ParameterFormat.size : ParameterFormat → Int
  | .Float => 4

/-- Modelled from the spec: `compute_serialized_parameters_size` lives in
`.utils`, which is not part of the sources; spec section 4.3 (SizeEstimator):
`bytes = num_parameters * byte_width(format)`, no clamping. -/
def compute_serialized_parameters_size (num_parameters : Int)
    (dtype : ParameterFormat) : Int :=
  num_parameters * dtype.size

/-- Modelled from the spec: `compute_effective_axis_dimension` lives in
`.utils`, which is not part of the sources; spec section 4.4
(AxisDimensionResolver): if the requested dimension is non-positive use the
fallback fixed dimension as the base, otherwise the requested dimension,
then subtract the reserved-token count; no guard against a negative result. -/
def compute_effective_axis_dimension (dimension : Int) (fixed_dimension : Int)
    (num_token_to_add : Int) : Int :=
  (if dimension ≤ 0 then fixed_dimension else dimension) - num_token_to_add

/-- `DEFAULT_ONNX_OPSET = 11` (config.py line 22). -/
def DEFAULT_ONNX_OPSET : Int := 11

/-- `EXTERNAL_DATA_FORMAT_SIZE_LIMIT = 2 * 1024 * 1024 * 1024` (2 GiB,
config.py line 25). -/
def EXTERNAL_DATA_FORMAT_SIZE_LIMIT : Int := 2 * 1024 * 1024 * 1024

/-- `DEFAULT_BERT_OPTIMIZER_FEATURES` (config.py lines 28-37): a literal
dictionary of eight boolean flags, embedded as an association list in source
order. -/
def DEFAULT_BERT_OPTIMIZER_FEATURES : List (String × Bool) :=
  [("enable_gelu", true),
   ("enable_layer_norm", true),
   ("enable_attention", true),
   ("enable_skip_layer_norm", true),
   ("enable_embed_layer_norm", true),
   ("enable_bias_skip_layer_norm", true),
   ("enable_bias_gelu", true),
   ("enable_gelu_approximation", false)]

/-- The wrapped model configuration (`transformers.PretrainedConfig`): an
opaque hyperparameter bag of which the source only probes one optional
boolean field, `use_cache`, via `hasattr`.  `none` embeds an absent
attribute, `some b` a present one with value `b`. -/
structure PretrainedConfig where
  use_cache : Option Bool

/-- The tokenizer collaborator (`transformers.PreTrainedTokenizer`), reduced
to the three capabilities the source uses: the unknown-token string, the
special-token count for pair/non-pair inputs, and being callable on a batch
of strings with a framework hint, yielding a name-to-tensor mapping.  The
tensor type `α` is opaque to the source. -/
structure PreTrainedTokenizer (α : Type) where
  unk_token : String
  num_special_tokens_to_add : Bool → Int
  call : List String → Option TensorType → List (String × α)

/-- Python `sep.join(xs)`. -/
def pyStrJoin (sep : String) (xs : List String) : String :=
  String.intercalate sep xs

/-- Python `s * n` on a string: `n` concatenated copies, empty when `n ≤ 0`. -/
def pyStrRepeat (s : String) (n : Int) : String :=
  String.join (List.replicate n.toNat s)

/-- `OnnxConfig.__init__` stores the model configuration (config.py
lines 45-46). -/
structure OnnxConfig where
  _config : PretrainedConfig

/-- `OnnxConfig.default` (config.py lines 48-59): factory returning an
instance wrapping the given configuration. -/
def OnnxConfig.default (config : PretrainedConfig) : OnnxConfig :=
  ⟨config⟩

/-- `OnnxConfig.values_override` (config.py lines 83-94): if the wrapped
config has a `use_cache` attribute, the single-entry dict
`{"use_cache": False}`, else `None`. -/
def OnnxConfig.values_override (self : OnnxConfig) :
    Option (List (String × Bool)) :=
  if self._config.use_cache.isSome then
    some [("use_cache", false)]
  else
    none

/-- `OnnxConfig.default_onnx_opset` (config.py lines 96-104). -/
def OnnxConfig.default_onnx_opset (_self : OnnxConfig) : Int :=
  DEFAULT_ONNX_OPSET

/-- `OnnxConfig.use_external_data_format` (config.py lines 106-121): true iff
the serialized Float32 parameter size reaches the 2 GiB limit. -/
def OnnxConfig.use_external_data_format (num_parameters : Int) : Bool :=
  decide (compute_serialized_parameters_size num_parameters ParameterFormat.Float
    ≥ EXTERNAL_DATA_FORMAT_SIZE_LIMIT)

/-- `OnnxConfig.generate_dummy_inputs` (config.py lines 123-154), embedded
statement by statement: resolve the batch axis (fixed 2, reserved 0), query
the tokenizer for the special-token count, resolve the sequence axis
(fixed 8), build `[" ".join([tokenizer.unk_token]) * seq_length] * batch_size`
and return `dict(tokenizer(dummy_input, return_tensors=framework))` (the
`dict` conversion of the tokenizer's mapping is the identity on the
association-list embedding). -/
def OnnxConfig.generate_dummy_inputs {α : Type} (_self : OnnxConfig)
    (tokenizer : PreTrainedTokenizer α) (batch_size : Int) (seq_length : Int)
    ( is_pair : Bool) (framework : Option TensorType) : List (String × α) :=
  let batch_size' := compute_effective_axis_dimension batch_size 2 0
  let token_to_add := tokenizer.num_special_tokens_to_add is_pair
  let seq_length' := compute_effective_axis_dimension seq_length 8 token_to_add
  let dummy_input :=
    List.replicate batch_size'.toNat
      (pyStrRepeat (pyStrJoin " " [tokenizer.unk_token]) seq_length')
  tokenizer.call dummy_input framework

/-- `OnnxConfigWithPast.__init__` (config.py lines 157-160): the parent state
plus the `use_past` flag. -/
structure OnnxConfigWithPast extends OnnxConfig where
  use_past : Bool

/-- `OnnxConfigWithPast(config, use_past)` constructor (config.py
lines 158-160). -/
def OnnxConfigWithPast.init (config : PretrainedConfig) (use_past : Bool) :
    OnnxConfigWithPast :=
  ⟨⟨config⟩, use_past⟩

/-- `OnnxConfigWithPast.with_past` (config.py lines 162-173): factory calling
the constructor with `use_past=True`. -/
def OnnxConfigWithPast.with_past (config : PretrainedConfig) :
    OnnxConfigWithPast :=
  OnnxConfigWithPast.init config true

/-- `OnnxConfigWithPast.config_values_override` (config.py lines 175-179): if
the wrapped config has a `use_cache` attribute, `{"use_cache": use_past}`,
else `None`. -/
def OnnxConfigWithPast.config_values_override (self : OnnxConfigWithPast) :
    Option (List (String × Bool)) :=
  if self.toOnnxConfig._config.use_cache.isSome then
    some [("use_cache", self.use_past)]
  else
    none

/-!
State-threaded forms of the `OnnxConfig` operations.  Python objects are
mutable; to state frame properties the methods are re-embedded with the
receiver threaded explicitly, each `return` statement yielding the receiver
state as it stands at that point.  The method bodies (config.py lines 83-94,
96-104, 106-121, 123-154, 175-179) contain only attribute reads
(`hasattr`, `self._config`, `self.use_past`) and pure computation, never an
assignment, so every branch returns the incoming state.
-/

/-- State-threaded `OnnxConfig.values_override` (config.py lines 83-94). -/
def OnnxConfig.values_override_st (self : OnnxConfig) :
    Option (List (String × Bool)) × OnnxConfig :=
  if self._config.use_cache.isSome then
    (some [("use_cache", false)], self)
  else
    (none, self)

/-- State-threaded `OnnxConfig.default_onnx_opset` (config.py
lines 96-104). -/
def OnnxConfig.default_onnx_opset_st (self : OnnxConfig) : Int × OnnxConfig :=
  (DEFAULT_ONNX_OPSET, self)

/-- State-threaded `OnnxConfig.use_external_data_format` (config.py
lines 106-121); a static method, threaded over an ambient instance to state
that it touches no wrapped configuration. -/
def OnnxConfig.use_external_data_format_st (num_parameters : Int)
    (self : OnnxConfig) : Bool × OnnxConfig :=
  (decide (compute_serialized_parameters_size num_parameters ParameterFormat.Float
    ≥ EXTERNAL_DATA_FORMAT_SIZE_LIMIT), self)

/-- State-threaded `OnnxConfig.generate_dummy_inputs` (config.py
lines 123-154); the tokenizer call is the single external effect and does not
touch the receiver. -/
def OnnxConfig.generate_dummy_inputs_st {α : Type} (self : OnnxConfig)
    (tokenizer : PreTrainedTokenizer α) (batch_size : Int) (seq_length : Int)
    ( is_pair : Bool) (framework : Option TensorType) :
    List (String × α) × OnnxConfig :=
  let batch_size' := compute_effective_axis_dimension batch_size 2 0
  let token_to_add := tokenizer.num_special_tokens_to_add is_pair
  let seq_length' := compute_effective_axis_dimension seq_length 8 token_to_add
  let dummy_input :=
    List.replicate batch_size'.toNat
      (pyStrRepeat (pyStrJoin " " [tokenizer.unk_token]) seq_length')
  (tokenizer.call dummy_input framework, self)

/-- State-threaded `OnnxConfigWithPast.config_values_override` (config.py
lines 175-179). -/
def OnnxConfigWithPast.config_values_override_st (self : OnnxConfigWithPast) :
    Option (List (String × Bool)) × OnnxConfigWithPast :=
  if self.toOnnxConfig._config.use_cache.isSome then
    (some [("use_cache", self.use_past)], self)
  else
    (none, self)

/-- C1: with a tokenizer whose special-token count for a non-pair input is 0,
`generate_dummy_inputs(tok, batch_size=-1, seq_length=-1, is_pair=false)`
resolves the batch dimension to 2 (resolver with fixed=2, reserved=0) and
the sequence dimension to 8 (resolver with fixed=8), and hands the tokenizer
a list of exactly 2 samples, each the unknown-token text repeated to 8
effective tokens. -/
theorem generate_dummy_inputs_dynamic_defaults {α : Type} (self : OnnxConfig)
    (tok : PreTrainedTokenizer α) (fw : Option TensorType)
    (h : tok.num_special_tokens_to_add false = 0) :
    compute_effective_axis_dimension (-1) 2 0 = 2 ∧
    compute_effective_axis_dimension (-1) 8
      (tok.num_special_tokens_to_add false) = 8 ∧
    self.generate_dummy_inputs tok (-1) (-1) false fw =
      tok.call (List.replicate 2 (pyStrRepeat tok.unk_token 8)) fw ∧
    (List.replicate 2 (pyStrRepeat tok.unk_token 8)).length = 2 := by
  refine ⟨by decide, by rw [h]; decide, ?_, rfl⟩
  simp only [OnnxConfig.generate_dummy_inputs, h]
  rfl

/-- Concrete instantiation of C1: a tokenizer with unknown token "[UNK]",
zero special tokens, and an output recording the batch it was handed. -/
theorem generate_dummy_inputs_dynamic_defaults_witness :
    (PreTrainedTokenizer.mk "[UNK]" (fun _ => 0)
        (fun xs _ => [("input_ids", xs)]) : PreTrainedTokenizer (List String)
      ).num_special_tokens_to_add false = 0 ∧
    (OnnxConfig.default ⟨some true⟩).generate_dummy_inputs
        (PreTrainedTokenizer.mk "[UNK]" (fun _ => 0)
          (fun xs _ => [("input_ids", xs)])) (-1) (-1) false none =
      [("input_ids", List.replicate 2 (pyStrRepeat "[UNK]" 8))] :=
  ⟨rfl,
   (generate_dummy_inputs_dynamic_defaults (OnnxConfig.default ⟨some true⟩)
     (PreTrainedTokenizer.mk "[UNK]" (fun _ => 0)
       (fun xs _ => [("input_ids", xs)])) none rfl).2.2.1⟩

/-- C2: `use_external_data_format(n)` is true iff `n * 4 ≥ 2^31`; in
particular true at 536870912 and false at 536870911. -/
theorem use_external_data_format_iff (num_parameters : Int) :
    (OnnxConfig.use_external_data_format num_parameters = true ↔
      num_parameters * 4 ≥ 2 ^ 31) ∧
    OnnxConfig.use_external_data_format 536870912 = true ∧
    OnnxConfig.use_external_data_format 536870911 = false := by
  refine ⟨?_, by decide, by decide⟩
  simp only [OnnxConfig.use_external_data_format,
    compute_serialized_parameters_size, ParameterFormat.size,
    EXTERNAL_DATA_FORMAT_SIZE_LIMIT, decide_eq_true_eq, ge_iff_le]
  norm_num

/-- C3: the axis-dimension resolver returns `fixed - reserved` when the
requested dimension is non-positive and `requested - reserved` when it is
positive; in particular resolver(-1, fixed=2, reserved=0) = 2,
resolver(-1, fixed=8, reserved=2) = 6 and resolver(5, fixed=8, reserved=2)
= 3. -/
theorem compute_effective_axis_dimension_spec (d f r : Int) :
    (d ≤ 0 → compute_effective_axis_dimension d f r = f - r) ∧
    (0 < d → compute_effective_axis_dimension d f r = d - r) ∧
    compute_effective_axis_dimension (-1) 2 0 = 2 ∧
    compute_effective_axis_dimension (-1) 8 2 = 6 ∧
    compute_effective_axis_dimension 5 8 2 = 3 := by
  refine ⟨fun h => ?_, fun h => ?_, by decide, by decide, by decide⟩
  · simp [compute_effective_axis_dimension, h]
  · simp [compute_effective_axis_dimension, not_le.mpr h]

/-- Concrete instantiations of C3 discharging each case's hypothesis. -/
theorem compute_effective_axis_dimension_spec_witness :
    compute_effective_axis_dimension (-1) 8 2 = 8 - 2 ∧
    compute_effective_axis_dimension 5 8 2 = 5 - 2 :=
  ⟨(compute_effective_axis_dimension_spec (-1) 8 2).1 (by decide),
   (compute_effective_axis_dimension_spec 5 8 2).2.1 (by decide)⟩

/-- C4: `values_override` is `{"use_cache": False}` when the wrapped config
exposes the optional `use_cache` field and `None` when it does not; the
absent case is an ordinary result, not an error. -/
theorem values_override_cache_probe (cfg : PretrainedConfig) :
    (cfg.use_cache.isSome = true →
      (OnnxConfig.default cfg).values_override = some [("use_cache", false)]) ∧
    (cfg.use_cache = none →
      (OnnxConfig.default cfg).values_override = none) := by
  constructor
  · intro h
    simp [OnnxConfig.default, OnnxConfig.values_override, h]
  · intro h
    simp [OnnxConfig.default, OnnxConfig.values_override, h]

/-- Concrete instantiations of C4 for both a present and an absent
`use_cache` field. -/
theorem values_override_cache_probe_witness :
    (OnnxConfig.default ⟨some true⟩).values_override =
      some [("use_cache", false)] ∧
    (OnnxConfig.default ⟨none⟩).values_override = none :=
  ⟨(values_override_cache_probe ⟨some true⟩).1 rfl,
   (values_override_cache_probe ⟨none⟩).2 rfl⟩

/-- C5: `with_past` builds an instance with `use_past = true` whose
`config_values_override` is `{"use_cache": True}` when the config exposes the
cache field; in general `config_values_override` is
`{"use_cache": use_past}` when the field is present and `None` otherwise. -/
theorem with_past_config_values_override (cfg : PretrainedConfig) (b : Bool) :
    (OnnxConfigWithPast.with_past cfg).use_past = true ∧
    (cfg.use_cache.isSome = true →
      (OnnxConfigWithPast.with_past cfg).config_values_override =
        some [("use_cache", true)] ∧
      (OnnxConfigWithPast.init cfg b).config_values_override =
        some [("use_cache", b)]) ∧
    (cfg.use_cache = none →
      (OnnxConfigWithPast.init cfg b).config_values_override = none) := by
  refine ⟨rfl, fun h => ?_, fun h => ?_⟩
  · constructor <;>
      simp [OnnxConfigWithPast.with_past, OnnxConfigWithPast.init,
        OnnxConfigWithPast.config_values_override, h]
  · simp [OnnxConfigWithPast.init,
      OnnxConfigWithPast.config_values_override, h]

/-- Concrete instantiations of C5 for a present and an absent `use_cache`
field. -/
theorem with_past_config_values_override_witness :
    (OnnxConfigWithPast.with_past ⟨some true⟩).config_values_override =
      some [("use_cache", true)] ∧
    (OnnxConfigWithPast.init ⟨some true⟩ false).config_values_override =
      some [("use_cache", false)] ∧
    (OnnxConfigWithPast.init ⟨none⟩ true).config_values_override = none :=
  ⟨((with_past_config_values_override ⟨some true⟩ false).2.1 rfl).1,
   ((with_past_config_values_override ⟨some true⟩ false).2.1 rfl).2,
   (with_past_config_values_override ⟨none⟩ true).2.2 rfl⟩

/-- C6: for every tokenizer and arguments, `generate_dummy_inputs` hands the
tokenizer one placeholder string per sample — the unknown-token string
repeated to the resolved sequence length as a single joined/repeated string —
replicated to the resolved batch size, and returns the tokenizer's output on
that batch for the given framework as a plain name-to-tensor mapping. -/
theorem generate_dummy_inputs_shape {α : Type} (self : OnnxConfig)
    (tok : PreTrainedTokenizer α) (b s : Int) (pair : Bool)
    (fw : Option TensorType) :
    self.generate_dummy_inputs tok b s pair fw =
      tok.call
        (List.replicate (compute_effective_axis_dimension b 2 0).toNat
          (pyStrRepeat tok.unk_token
            (compute_effective_axis_dimension s 8
              (tok.num_special_tokens_to_add pair))))
        fw := rfl

/-- C7: a `OnnxConfigWithPast` instance inherits `values_override` unchanged:
for both values of `use_past`, it is still `{"use_cache": False}` whenever
the wrapped config exposes the cache field. -/
theorem past_aware_values_override_unchanged (cfg : PretrainedConfig)
    (b : Bool) (h : cfg.use_cache.isSome = true) :
    (OnnxConfigWithPast.init cfg b).toOnnxConfig.values_override =
      some [("use_cache", false)] := by
  simp [OnnxConfigWithPast.init, OnnxConfig.values_override, h]

/-- Concrete instantiation of C7 with `use_past = true`. -/
theorem past_aware_values_override_unchanged_witness :
    (OnnxConfigWithPast.init ⟨some true⟩ true).toOnnxConfig.values_override =
      some [("use_cache", false)] :=
  past_aware_values_override_unchanged ⟨some true⟩ true rfl

/-- C8: the `default_onnx_opset` of an instance built by the `default`
factory is exactly 11. -/
theorem default_onnx_opset_is_eleven (cfg : PretrainedConfig) :
    (OnnxConfig.default cfg).default_onnx_opset = 11 := rfl

/-- C9: none of the operations mutates the wrapped model configuration: each
state-threaded method returns its receiver (hence the wrapped
`PretrainedConfig`) unchanged; overrides come back as data only. -/
theorem operations_leave_config_unchanged {α : Type} (self : OnnxConfig)
    (wp : OnnxConfigWithPast) (tok : PreTrainedTokenizer α)
    (n b s : Int) (pair : Bool) (fw : Option TensorType) :
    (self.values_override_st).2 = self ∧
    (self.default_onnx_opset_st).2 = self ∧
    (OnnxConfig.use_external_data_format_st n self).2 = self ∧
    (self.generate_dummy_inputs_st tok b s pair fw).2 = self ∧
    (wp.config_values_override_st).2 = wp := by
  refine ⟨?_, rfl, rfl, rfl, ?_⟩
  · unfold OnnxConfig.values_override_st
    split <;> rfl
  · unfold OnnxConfigWithPast.config_values_override_st
    split <;> rfl

/-- C10: the optimizer feature vocabulary is exactly eight boolean flags in
fixed order, all defaulting to true except the approximate-GELU fusion flag
(`enable_gelu_approximation`), which defaults to false. -/
theorem default_bert_optimizer_features_table :
    DEFAULT_BERT_OPTIMIZER_FEATURES.length = 8 ∧
    DEFAULT_BERT_OPTIMIZER_FEATURES.map Prod.fst =
      ["enable_gelu", "enable_layer_norm", "enable_attention",
       "enable_skip_layer_norm", "enable_embed_layer_norm",
       "enable_bias_skip_layer_norm", "enable_bias_gelu",
       "enable_gelu_approximation"] ∧
    ∀ p ∈ DEFAULT_BERT_OPTIMIZER_FEATURES,
      p.2 = decide (p.1 ≠ "enable_gelu_approximation") := by
  refine ⟨rfl, rfl, ?_⟩
  decide
